import Mathlib

/-!
Shallow embedding of the iterative gather-evaluate engine of the
`open-deep-research` repository (package `adk_deep_research`), used to check
the natural-language specification against the code.

Source files embedded:
- `config.py` : the `RESEARCH_CONFIG` constants.
- `schemas.py` : the `SearchResult` data model.
- `tools.py` : `_search_on_web_implementation` and its inner `scrape_task`.
- `gather_agent.py` : `PerformSearchAndSummarizeAgent._run_async_impl`,
  `EvaluateResearchAgent._run_async_impl`, `GatherIterationAgent`,
  `GatherLoopAgent._prepare_iteration_context`,
  `GatherLoopAgent._loop_condition_fn`, `GatherLoopAgent._run_async_impl`.
- `main_agent.py` : the gather-phase dispatch of
  `DeepResearchOrchestratorAgent._run_async_impl` (lines 187-194).

Python strings are modelled character-exactly: slicing `s[:n]` becomes
`pySlice n s` (take of the character list) and `str.replace` becomes
`pyReplace` (left-to-right replacement of all non-overlapping occurrences).
External capabilities (search provider, scraper, summarizer LLM, evaluation
LLM, query-extraction LLM) are parameters of the embedded functions; a
capability that can raise is modelled as `Except Unit`, a capability that can
merely return an event without usable content is modelled as `Option`.
-/

namespace AdkDeepResearch

/-- `RESEARCH_CONFIG["budget"]` from `config.py`. -/
def RESEARCH_CONFIG_budget : Nat := 2

/-- `RESEARCH_CONFIG["maxQueries"]` from `config.py`. -/
def RESEARCH_CONFIG_maxQueries : Nat := 2

/-- Character-level model of Python string slicing `s[:n]`. -/
def pySlice (n : Nat) (s : String) : String := String.mk (s.data.take n)

/-- Fuel-driven worker for `pyReplace`.  Replaces every non-overlapping
occurrence of `pat` in the character list, scanning left to right, exactly as
Python `str.replace` does for a non-empty pattern.  The fuel (instantiated
with the length of the subject string, which bounds the number of scanning
steps for non-empty patterns) only makes the recursion structural. -/
def pyReplaceAux (pat repl : List Char) : Nat → List Char → List Char
  | _, [] => []
  | 0, s => s
  | Nat.succ fuel, c :: rest =>
    if pat.isPrefixOf (c :: rest) then
      repl ++ pyReplaceAux pat repl fuel ((c :: rest).drop pat.length)
    else
      c :: pyReplaceAux pat repl fuel rest

/-- Character-level model of Python `s.replace(pat, repl)` for non-empty
`pat` (the source only ever replaces bracketed markdown link patterns, which
are never empty). -/
def pyReplace (s pat repl : String) : String :=
  String.mk (pyReplaceAux pat.data repl.data s.data.length s.data)

/-- `SearchResult` from `schemas.py`: `{title, link, content, summary}` with
`summary` optional and defaulting to `None`. -/
structure SearchResult where
  title : String
  link : String
  content : String
  summary : Option String := none
deriving Repr, DecidableEq

/-- One raw Brave search hit as assembled in
`_search_on_web_implementation` (`tools.py` lines 108-114): a
`{title, link}` dictionary. -/
structure RawCandidate where
  title : String
  link : String
deriving Repr, DecidableEq

/-- The markdown cleaning applied inside `scrape_task`
(`tools.py` lines 135-136): two `str.replace` calls removing the image link
pattern and rewriting the plain link pattern to the title. -/
def cleanScrapedContent (sr : RawCandidate) (markdown : String) : String :=
  let c1 := pyReplace markdown ("![" ++ sr.title ++ "](" ++ sr.link ++ ")") ""
  pyReplace c1 ("[" ++ sr.title ++ "](" ++ sr.link ++ ")") sr.title

/-- `scrape_task` from `tools.py` (lines 123-143).  The fetch capability
(`firecrawl_app.scrape_url`) is a parameter; `none` models both a raised
exception and an unsuccessful scrape response, each of which makes the task
return `None` in the source.  On success the record's content is the cleaned
markdown truncated by `content[:80000]`. -/
def scrape_task (fetch : RawCandidate → Option String) (sr : RawCandidate) :
    Option SearchResult :=
  match fetch sr with
  | none => none
  | some markdown =>
    some { title := sr.title, link := sr.link,
           content := pySlice 80000 (cleanScrapedContent sr markdown),
           summary := none }

/-- The scraping half of `_search_on_web_implementation`
(`tools.py` lines 119-154): one `scrape_task` per candidate with a non-empty
link, then keep the results that are not `None` and have non-empty content
(`[r for r in results if r is not None and r.content]`).  The final
`if not scraped_results: return []` returns the same (empty) list and is
therefore transparent here. -/
def searchOnWeb (fetch : RawCandidate → Option String)
    (search_results_raw : List RawCandidate) : List SearchResult :=
  let tasks := (search_results_raw.filter (fun sr => sr.link ≠ "")).map (scrape_task fetch)
  tasks.filterMap (fun r =>
    match r with
    | some rec => if rec.content ≠ "" then some rec else none
    | none => none)

/-- The slice of `context.state` read and written by the gather loop and its
sub-agents (`gather_agent.py`).  Keys: `research_topic`, `iteration`,
`max_budget_iterations`, `all_queries`, `search_results`,
`current_iteration_queries`, `initial_queries`, `needs_more_research`,
`additional_queries`.  (`user_content` and `current_eval_text` are transient
prompt-plumbing keys and carry no control-flow information.) -/
structure GatherState where
  research_topic : String
  iteration : Nat
  max_budget_iterations : Nat
  all_queries : List String
  search_results : List SearchResult
  current_iteration_queries : List String
  initial_queries : List String
  needs_more_research : Bool
  additional_queries : List String
deriving Repr, DecidableEq

/-- The per-result summarization step of
`PerformSearchAndSummarizeAgent._run_async_impl` (`gather_agent.py` lines
145-162).  The summarizer capability returns `none` when the summary event
has no content, in which case the source substitutes the literal string
`"Summary not available."`; the new record keeps the original content and
stores that text as its summary. -/
def summarizeResult (summarize : String → String → Option String)
    (query : String) (search_result : SearchResult) : SearchResult :=
  let summary_text :=
    match summarize query search_result.content with
    | some t => t
    | none => "Summary not available."
  { title := search_result.title, link := search_result.link,
    content := search_result.content, summary := some summary_text }

/-- The records accumulated into `all_new_results_for_iteration` by the query
loop of `PerformSearchAndSummarizeAgent._run_async_impl` (`gather_agent.py`
lines 83-172): for each query of the iteration, the search capability's
results, each summarized. -/
def newRecordsFor (search : String → List SearchResult)
    (summarize : String → String → Option String) (st : GatherState) :
    List SearchResult :=
  st.current_iteration_queries.flatMap
    (fun query => (search query).map (summarizeResult summarize query))

/-- State update of `PerformSearchAndSummarizeAgent._run_async_impl`
(`gather_agent.py` lines 174-184): `search_results` is extended with the
iteration's new records and `all_queries` becomes
`list(set(all_queries + current_iteration_queries))`.  Python's `set` fixes
no element order, so the result is modelled by `dedup` of the concatenation,
which has exactly the same membership. -/
def performSearchAndSummarize (search : String → List SearchResult)
    (summarize : String → String → Option String) (st : GatherState) :
    GatherState :=
  { st with
    search_results := st.search_results ++ newRecordsFor search summarize st,
    all_queries := (st.all_queries ++ st.current_iteration_queries).dedup }

/-- The `summary or content` fallback of Python: `sr.summary or
sr.content[:200]` treats both `None` and the empty string as falsy. -/
def pyOrElse (o : Option String) (alt : String) : String :=
  match o with
  | some s => if s = "" then alt else s
  | none => alt

/-- `formatted_results_for_eval` from `EvaluateResearchAgent._run_async_impl`
(`gather_agent.py` lines 225-228): a display string over the accumulated
results, truncating each record's content to 200 characters when it has no
summary. -/
def formatResultsForEval (st : GatherState) : String :=
  String.intercalate "\n\n"
    (st.search_results.map (fun sr =>
      "- " ++ sr.title ++ "\n" ++ pyOrElse sr.summary (pySlice 200 sr.content) ++ "..."))

/-- `formatted_queries_for_eval` from `EvaluateResearchAgent._run_async_impl`
(`gather_agent.py` line 229). -/
def formatQueriesForEval (st : GatherState) : String :=
  String.intercalate "\n" (st.all_queries.map (fun q => "- " ++ q))

/-- `EvaluateResearchAgent._run_async_impl` (`gather_agent.py` lines
211-275).  The judgment capability receives the topic and the two formatted
prompt strings and yields free-form reasoning (`none` when the event carries
no content, in which case the text defaults to `""`); the parse capability
receives that text and yields the extracted query list (`none` when its
output has no usable `queries` attribute, in which case the list defaults to
`[]`).  Either capability may raise (`Except.error`), and the method contains
no exception handler, so a raise propagates.  On success the state update is:
`needs_more_research := len(additional_queries) > 0` (computed on the
*uncapped* list) and `additional_queries := additional_queries[:maxQueries]`. -/
def evaluateResearch
    (judge : String → String → String → Except Unit (Option String))
    (parse : String → Except Unit (Option (List String)))
    (st : GatherState) : Except Unit GatherState :=
  match judge st.research_topic (formatQueriesForEval st) (formatResultsForEval st) with
  | Except.error e => Except.error e
  | Except.ok evalTextOpt =>
    match parse (Option.getD evalTextOpt "") with
    | Except.error e => Except.error e
    | Except.ok parsedOpt =>
      let additional_queries := Option.getD parsedOpt []
      Except.ok { st with
        needs_more_research := decide (0 < additional_queries.length),
        additional_queries := additional_queries.take RESEARCH_CONFIG_maxQueries }

/-- `GatherIterationAgent` (`gather_agent.py` lines 278-321): one round runs
`PerformSearchAndSummarizeAgent` then `EvaluateResearchAgent` in sequence
(the trailing `IterationCompletedEvent` emission does not touch state). -/
def gatherIteration (search : String → List SearchResult)
    (summarize : String → String → Option String)
    (judge : String → String → String → Except Unit (Option String))
    (parse : String → Except Unit (Option (List String)))
    (st : GatherState) : Except Unit GatherState :=
  evaluateResearch judge parse (performSearchAndSummarize search summarize st)

/-- `GatherLoopAgent._prepare_iteration_context` (`gather_agent.py` lines
345-362): round 0 takes `initial_queries`, every later round takes the
previous evaluation's `additional_queries` — with no filtering of any kind
against `all_queries`. -/
def prepareIterationContext (st : GatherState) : GatherState :=
  if st.iteration = 0 then
    { st with current_iteration_queries := st.initial_queries }
  else
    { st with current_iteration_queries := st.additional_queries }

/-- `GatherLoopAgent._loop_condition_fn` (`gather_agent.py` lines 364-387):
continue only when the iteration count is below `max_budget_iterations`, the
evaluation asked for more research, and it produced at least one new query. -/
def loopConditionFn (st : GatherState) : Bool :=
  if st.iteration ≥ st.max_budget_iterations then false
  else if st.needs_more_research = false then false
  else if st.additional_queries.isEmpty then false
  else true

/-- Modelled from the spec: the `adk.agents.LoopAgent` driver invoked by
`GatherLoopAgent._run_async_impl` is library code that is not under `src/`;
per spec section 4.4 it runs `_prepare_iteration_context`, then the iteration
agent, then increments the round counter, and repeats while
`_loop_condition_fn` holds.  The returned number counts the iteration-agent
invocations (rounds executed); the fuel only makes the recursion structural
and the budget-bound theorem holds for every fuel. -/
def runGatherLoop (search : String → List SearchResult)
    (summarize : String → String → Option String)
    (judge : String → String → String → Except Unit (Option String))
    (parse : String → Except Unit (Option (List String))) :
    Nat → GatherState → Except Unit (Nat × GatherState)
  | 0, st => Except.ok (0, st)
  | Nat.succ fuel, st =>
    match gatherIteration search summarize judge parse (prepareIterationContext st) with
    | Except.error e => Except.error e
    | Except.ok st3 =>
      if loopConditionFn { st3 with iteration := st3.iteration + 1 } then
        match runGatherLoop search summarize judge parse fuel
            { st3 with iteration := st3.iteration + 1 } with
        | Except.error e => Except.error e
        | Except.ok (n, stF) => Except.ok (n + 1, stF)
      else
        Except.ok (1, { st3 with iteration := st3.iteration + 1 })

/-- The kinds of progress events of `schemas.py` (`StreamEvent` union). -/
inductive StreamEventKind where
  | planning_started
  | planning_completed
  | search_started
  | search_completed
  | content_processing
  | content_summarized
  | evaluation_started
  | evaluation_completed
  | iteration_completed
  | research_completed
  | error_kind
deriving Repr, DecidableEq

/-- The gather-phase dispatch of
`DeepResearchOrchestratorAgent._run_async_impl` (`main_agent.py` lines
187-194): when `initial_queries` is empty the orchestrator only prints
`"No initial queries generated. Skipping gather phase."` to stdout and skips
the gather loop — zero rounds run and no progress event is emitted for the
condition; otherwise it invokes `GatherLoopAgent`, whose rounds-executed
count and emitted events are abstracted here as the two parameters. -/
def mainAgentGatherStep (loopRounds : Nat) (loopEvents : List StreamEventKind)
    (st : GatherState) : Nat × List StreamEventKind :=
  if st.initial_queries.isEmpty then (0, [])
  else (loopRounds, loopEvents)

/-! Concrete capability behaviours and states used by the witnesses and
counterexamples below. -/

/-- A search provider whose every query fails (returns zero candidates). -/
def cSearchNone : String → List SearchResult := fun _ => []

/-- A search provider returning one fixed raw record for every query. -/
def cSearchOne : String → List SearchResult :=
  fun _ => [{ title := "T", link := "u", content := "raw", summary := none }]

/-- A summarizer whose event never carries content. -/
def cSummarizeNone : String → String → Option String := fun _ _ => none

/-- A judgment capability that always answers with reasoning text. -/
def cJudgeSome : String → String → String → Except Unit (Option String) :=
  fun _ _ _ => Except.ok (some "more research needed")

/-- A judgment capability that always raises. -/
def cJudgeRaise : String → String → String → Except Unit (Option String) :=
  fun _ _ _ => Except.error ()

/-- A parse capability that always extracts the single query `"q"`,
regardless of prior rounds — the evaluator that keeps asking for more. -/
def cParseRepeat : String → Except Unit (Option (List String)) :=
  fun _ => Except.ok (some ["q"])

/-- A parse capability that always extracts three queries. -/
def cParse3 : String → Except Unit (Option (List String)) :=
  fun _ => Except.ok (some ["a", "b", "c"])

/-- A parse capability whose output never has a usable `queries` attribute. -/
def cParseNone : String → Except Unit (Option (List String)) :=
  fun _ => Except.ok none

/-- Seed state: budget 2, one seed query, nothing gathered yet. -/
def cSt0 : GatherState :=
  { research_topic := "topic", iteration := 0, max_budget_iterations := 2,
    all_queries := [], search_results := [], current_iteration_queries := [],
    initial_queries := ["q"], needs_more_research := false,
    additional_queries := [] }

/-- `cSt0` with budget 1. -/
def cStB1 : GatherState := { cSt0 with max_budget_iterations := 1 }

/-- The state after round 1 of `cSt0` under `cSearchNone`/`cSummarizeNone`/
`cJudgeSome`/`cParseRepeat`: the seed query was searched and recorded, and
the evaluator asked for `"q"` again. -/
def cSt4 : GatherState :=
  { research_topic := "topic", iteration := 1, max_budget_iterations := 2,
    all_queries := ["q"], search_results := [], current_iteration_queries := ["q"],
    initial_queries := ["q"], needs_more_research := true,
    additional_queries := ["q"] }

/-- The state after the single budget-1 round of `cStB1`. -/
def cStB1Final : GatherState := { cSt4 with max_budget_iterations := 1 }

/-- A state whose current round carries the query `"q"`. -/
def cStQ : GatherState :=
  { research_topic := "topic", iteration := 0, max_budget_iterations := 2,
    all_queries := [], search_results := [], current_iteration_queries := ["q"],
    initial_queries := ["q"], needs_more_research := false,
    additional_queries := [] }

/-- The record `cSearchOne` yields, after summarization fell back to the
placeholder text. -/
def cRecSum : SearchResult :=
  { title := "T", link := "u", content := "raw",
    summary := some "Summary not available." }

/-- `cStQ` after one `gatherIteration` under `cSearchOne`/`cSummarizeNone`/
`cJudgeSome`/`cParseRepeat`. -/
def cStQ1 : GatherState :=
  { research_topic := "topic", iteration := 0, max_budget_iterations := 2,
    all_queries := ["q"], search_results := [cRecSum],
    current_iteration_queries := ["q"], initial_queries := ["q"],
    needs_more_research := true, additional_queries := ["q"] }

/-- `cStQ` after `evaluateResearch` under `cJudgeSome`/`cParse3`. -/
def cStEval3 : GatherState :=
  { cStQ with needs_more_research := true, additional_queries := ["a", "b"] }

/-- A state whose seed query set is empty. -/
def cStEmptySeed : GatherState := { cSt0 with initial_queries := [] }

/-- A plain record used by the summarization counterexample. -/
def cRec0 : SearchResult :=
  { title := "T", link := "u", content := "raw", summary := none }

/-- Candidate A of the three-candidate scrape scenario. -/
def cCandA : RawCandidate := { title := "A", link := "u1" }

/-- Candidate B of the three-candidate scrape scenario (its fetch fails). -/
def cCandB : RawCandidate := { title := "B", link := "u2" }

/-- Candidate C of the three-candidate scrape scenario. -/
def cCandC : RawCandidate := { title := "C", link := "u3" }

/-- The three candidates of one query's search response. -/
def cRawList : List RawCandidate := [cCandA, cCandB, cCandC]

/-- A fetch capability that succeeds for candidates A and C and fails for
every other candidate. -/
def cFetch : RawCandidate → Option String := fun sr =>
  if sr.link = "u1" then some "alpha content"
  else if sr.link = "u3" then some "gamma content"
  else none

/-- The record scraped from candidate A. -/
def cRecA : SearchResult :=
  { title := "A", link := "u1", content := "alpha content", summary := none }

/-- The record scraped from candidate C. -/
def cRecC : SearchResult :=
  { title := "C", link := "u3", content := "gamma content", summary := none }

/-! Helper lemmas shared by the claim theorems. -/

/-- A successful evaluation only rewrites `needs_more_research` and
`additional_queries`; every other state key is untouched. -/
theorem evaluateResearch_ok_fields
    {judge : String → String → String → Except Unit (Option String)}
    {parse : String → Except Unit (Option (List String))}
    {st st' : GatherState}
    (h : evaluateResearch judge parse st = Except.ok st') :
    st'.iteration = st.iteration ∧
    st'.max_budget_iterations = st.max_budget_iterations ∧
    st'.search_results = st.search_results := by
  unfold evaluateResearch at h
  split at h
  · exact Except.noConfusion h
  · split at h
    · exact Except.noConfusion h
    · injection h with h2
      subst h2
      exact ⟨rfl, rfl, rfl⟩

/-- Preparing a round's query batch leaves the counters untouched. -/
theorem prepareIterationContext_fields (st : GatherState) :
    (prepareIterationContext st).iteration = st.iteration ∧
    (prepareIterationContext st).max_budget_iterations = st.max_budget_iterations := by
  unfold prepareIterationContext
  split
  · exact ⟨rfl, rfl⟩
  · exact ⟨rfl, rfl⟩

/-- A loop condition that answers `true` certifies that the iteration count
is still below the budget. -/
theorem loopConditionFn_true_lt {st : GatherState}
    (h : loopConditionFn st = true) :
    st.iteration < st.max_budget_iterations := by
  unfold loopConditionFn at h
  by_cases hge : st.iteration ≥ st.max_budget_iterations
  · rw [if_pos hge] at h
    exact Bool.noConfusion h
  · omega

/-- Core induction for the budget bound: a loop run starting strictly below
the budget executes at most `budget - iteration` further rounds, whatever the
capabilities do and whatever the fuel. -/
theorem runGatherLoop_round_bound (search : String → List SearchResult)
    (summarize : String → String → Option String)
    (judge : String → String → String → Except Unit (Option String))
    (parse : String → Except Unit (Option (List String))) :
    ∀ (fuel : Nat) (st : GatherState) (n : Nat) (stF : GatherState),
      runGatherLoop search summarize judge parse fuel st = Except.ok (n, stF) →
      st.iteration < st.max_budget_iterations →
      n + st.iteration ≤ st.max_budget_iterations := by
  intro fuel
  induction fuel with
  | zero =>
    intro st n stF h hlt
    unfold runGatherLoop at h
    injection h with h1
    have hn : n = 0 := (congrArg Prod.fst h1).symm
    omega
  | succ fuel ih =>
    intro st n stF h hlt
    unfold runGatherLoop at h
    split at h
    · exact Except.noConfusion h
    · rename_i st3 heval
      have hiter3 : st3.iteration = st.iteration := by
        have h1 := (evaluateResearch_ok_fields heval).1
        rw [show (performSearchAndSummarize search summarize
            (prepareIterationContext st)).iteration =
            (prepareIterationContext st).iteration from rfl,
          (prepareIterationContext_fields st).1] at h1
        exact h1
      have hmax3 : st3.max_budget_iterations = st.max_budget_iterations := by
        have h1 := (evaluateResearch_ok_fields heval).2.1
        rw [show (performSearchAndSummarize search summarize
            (prepareIterationContext st)).max_budget_iterations =
            (prepareIterationContext st).max_budget_iterations from rfl,
          (prepareIterationContext_fields st).2] at h1
        exact h1
      split at h
      · rename_i hcond
        split at h
        · exact Except.noConfusion h
        · rename_i n' stF' hrec
          injection h with h2
          have hn : n = n' + 1 := (congrArg Prod.fst h2).symm
          have hlt4 := loopConditionFn_true_lt hcond
          have hb := ih { st3 with iteration := st3.iteration + 1 } n' stF' hrec hlt4
          simp only [hiter3, hmax3] at hb hlt4
          omega
      · injection h with h2
        have hn : n = 1 := (congrArg Prod.fst h2).symm
        omega

/-- A candidate whose fetch fails yields no task result. -/
theorem scrape_task_of_fetch_none {fetch : RawCandidate → Option String}
    {sr : RawCandidate} (h : fetch sr = none) :
    scrape_task fetch sr = none := by
  unfold scrape_task
  rw [h]

/-- The scraping stage treats each candidate independently: it distributes
over concatenation of candidate lists. -/
theorem searchOnWeb_append (fetch : RawCandidate → Option String)
    (raw₁ raw₂ : List RawCandidate) :
    searchOnWeb fetch (raw₁ ++ raw₂) =
      searchOnWeb fetch raw₁ ++ searchOnWeb fetch raw₂ := by
  unfold searchOnWeb
  rw [List.filter_append, List.map_append, List.filterMap_append]

/-- A single candidate whose fetch fails contributes nothing. -/
theorem searchOnWeb_failed_singleton {fetch : RawCandidate → Option String}
    {sr : RawCandidate} (h : fetch sr = none) :
    searchOnWeb fetch [sr] = [] := by
  unfold searchOnWeb
  by_cases hl : sr.link = ""
  · simp [List.filter_cons, hl]
  · simp [List.filter_cons, List.filterMap_cons, hl, scrape_task_of_fetch_none h]

/-- Truncation really bounds the character count. -/
theorem pySlice_length_le (n : Nat) (s : String) : (pySlice n s).length ≤ n := by
  show (s.data.take n).length ≤ n
  rw [List.length_take]
  exact min_le_left _ _

/-! Claim theorems. -/

/-- Claim C1: for every configured budget `B ≥ 1` and every behaviour of the
evaluation capabilities — including one that always extracts non-empty
follow-up query lists — the gather loop executes at most `B` rounds, and the
loop-continuation condition `_loop_condition_fn` returns `false` whenever the
iteration count has reached `max_budget_iterations`. -/
theorem c1_budget_bound :
    (∀ st : GatherState, st.max_budget_iterations ≤ st.iteration →
      loopConditionFn st = false) ∧
    (∀ (B : Nat) (search : String → List SearchResult)
      (summarize : String → String → Option String)
      (judge : String → String → String → Except Unit (Option String))
      (parse : String → Except Unit (Option (List String)))
      (fuel : Nat) (st : GatherState) (n : Nat) (stF : GatherState),
      1 ≤ B → st.iteration = 0 → st.max_budget_iterations = B →
      runGatherLoop search summarize judge parse fuel st = Except.ok (n, stF) →
      n ≤ B) := by
  constructor
  · intro st h
    unfold loopConditionFn
    rw [if_pos h]
  · intro B search summarize judge parse fuel st n stF hB h0 hmax hrun
    have hb := runGatherLoop_round_bound search summarize judge parse fuel st n stF
      hrun (by omega)
    omega

/-- Witness for C1: with budget 1 and an evaluator that always extracts the
query `"q"` again, the loop still stops after exactly one round. -/
theorem c1_budget_bound_witness :
    (runGatherLoop cSearchNone cSummarizeNone cJudgeSome cParseRepeat 5 cStB1 =
      Except.ok (1, cStB1Final)) ∧ 1 ≤ 1 :=
  ⟨rfl, c1_budget_bound.2 1 cSearchNone cSummarizeNone cJudgeSome cParseRepeat
    5 cStB1 1 cStB1Final (Nat.le_refl 1) rfl rfl rfl⟩

/-- Claim C2 counterexample: after round 1 from the seed `["q"]`, the state
has `"q" ∈ all_queries`, the evaluator re-proposed `["q"]`, the loop
condition still answers `true`, and round 2's pending query batch is again
`["q"]` — a query already present in `all_queries` reappears in
`current_iteration_queries`, so no filtering against `all_queries` happens. -/
theorem c2_dedup_counterexample :
    runGatherLoop cSearchNone cSummarizeNone cJudgeSome cParseRepeat 1 cSt0 =
      Except.ok (1, cSt4) ∧
    loopConditionFn cSt4 = true ∧
    "q" ∈ cSt4.all_queries ∧
    (prepareIterationContext cSt4).current_iteration_queries = ["q"] :=
  ⟨rfl, by decide, by decide, by decide⟩

/-- Claim C2 amended: the evaluation stage's follow-up queries become the
next round's pending batch unchanged — no filtering against `all_queries`
takes place — while `all_queries` itself is a deduplicated superset of every
query batch ever executed. -/
theorem c2_dedup_amended :
    (∀ st : GatherState, st.iteration ≠ 0 →
      (prepareIterationContext st).current_iteration_queries =
        st.additional_queries) ∧
    (∀ (search : String → List SearchResult)
      (summarize : String → String → Option String) (st : GatherState)
      (q : String), q ∈ st.current_iteration_queries →
      q ∈ (performSearchAndSummarize search summarize st).all_queries) := by
  constructor
  · intro st h
    unfold prepareIterationContext
    rw [if_neg h]
  · intro search summarize st q hq
    show q ∈ (st.all_queries ++ st.current_iteration_queries).dedup
    rw [List.mem_dedup]
    exact List.mem_append_right _ hq

/-- Witness for the amended C2 at the concrete post-round-1 state. -/
theorem c2_dedup_amended_witness :
    ((prepareIterationContext cSt4).current_iteration_queries =
      cSt4.additional_queries) ∧
    ("q" ∈ (performSearchAndSummarize cSearchNone cSummarizeNone cSt4).all_queries) :=
  ⟨c2_dedup_amended.1 cSt4 (by decide),
   c2_dedup_amended.2 cSearchNone cSummarizeNone cSt4 "q" (by decide)⟩

/-- Claim C3 counterexample: when the judgment capability raises, the
evaluation stage does not produce a `sufficient = true` outcome — it has no
exception handler, so the failure propagates out of the round. -/
theorem c3_fail_closed_counterexample :
    evaluateResearch cJudgeRaise cParseRepeat cSt0 = Except.error () := rfl

/-- Claim C3 amended: when the parse capability returns no usable output,
the round's outcome is `needs_more_research = false` with empty
`additional_queries`, and the loop condition is then `false`, so the gather
loop terminates at that round; a raised exception, by contrast, propagates
uncaught. -/
theorem c3_fail_closed_amended :
    (∀ (judge : String → String → String → Except Unit (Option String))
      (parse : String → Except Unit (Option (List String)))
      (st : GatherState) (t : Option String),
      judge st.research_topic (formatQueriesForEval st) (formatResultsForEval st) =
        Except.ok t →
      parse (Option.getD t "") = Except.ok none →
      evaluateResearch judge parse st =
        Except.ok { st with needs_more_research := false,
                            additional_queries := [] }) ∧
    (∀ st : GatherState, st.needs_more_research = false →
      loopConditionFn st = false) := by
  constructor
  · intro judge parse st t hj hp
    unfold evaluateResearch
    simp only [hj]
    simp only [hp]
    rfl
  · intro st h
    unfold loopConditionFn
    rw [h]
    simp

/-- Witness for the amended C3: a concrete parse capability with no usable
output yields the sufficient outcome. -/
theorem c3_fail_closed_amended_witness :
    evaluateResearch cJudgeSome cParseNone cStQ =
      Except.ok { cStQ with needs_more_research := false,
                            additional_queries := [] } :=
  (c3_fail_closed_amended.1 cJudgeSome cParseNone cStQ
    (some "more research needed") rfl rfl)

/-- Claim C4: a round only appends to `search_results`: the prior sequence
is an unchanged prefix (the new sequence is the old one followed by the
round's new records), the length is non-decreasing, and a round with zero
new records leaves the sequence unchanged. -/
theorem c4_evidence_append_only :
    ∀ (search : String → List SearchResult)
      (summarize : String → String → Option String)
      (judge : String → String → String → Except Unit (Option String))
      (parse : String → Except Unit (Option (List String)))
      (st st' : GatherState),
      gatherIteration search summarize judge parse st = Except.ok st' →
      st'.search_results = st.search_results ++ newRecordsFor search summarize st ∧
      st.search_results.length ≤ st'.search_results.length ∧
      (newRecordsFor search summarize st = [] →
        st'.search_results = st.search_results) := by
  intro search summarize judge parse st st' h
  have hs : st'.search_results =
      st.search_results ++ newRecordsFor search summarize st :=
    (evaluateResearch_ok_fields h).2.2
  refine ⟨hs, ?_, ?_⟩
  · rw [hs, List.length_append]
    omega
  · intro h0
    rw [hs, h0, List.append_nil]

/-- Witness for C4 at a concrete round that gathers one record. -/
theorem c4_evidence_append_only_witness :
    (gatherIteration cSearchOne cSummarizeNone cJudgeSome cParseRepeat cStQ =
      Except.ok cStQ1) ∧
    cStQ.search_results.length ≤ cStQ1.search_results.length :=
  ⟨rfl, (c4_evidence_append_only cSearchOne cSummarizeNone cJudgeSome
    cParseRepeat cStQ cStQ1 rfl).2.1⟩

/-- Claim C5: a successful evaluation reports `needs_more_research = false`
exactly when the follow-up query list it stores is empty. -/
theorem c5_sufficient_iff_no_queries :
    ∀ (judge : String → String → String → Except Unit (Option String))
      (parse : String → Except Unit (Option (List String)))
      (st st' : GatherState),
      evaluateResearch judge parse st = Except.ok st' →
      (st'.needs_more_research = false ↔ st'.additional_queries = []) := by
  intro judge parse st st' h
  unfold evaluateResearch at h
  split at h
  · exact Except.noConfusion h
  · split at h
    · exact Except.noConfusion h
    · rename_i parsedOpt hp
      injection h with h2
      subst h2
      show decide (0 < (Option.getD parsedOpt []).length) = false ↔
        (Option.getD parsedOpt []).take RESEARCH_CONFIG_maxQueries = []
      generalize Option.getD parsedOpt [] = qs
      cases qs with
      | nil => simp
      | cons a tl => simp [RESEARCH_CONFIG_maxQueries]

/-- Witness for C5 at a concrete evaluation with three extracted queries. -/
theorem c5_sufficient_iff_no_queries_witness :
    (evaluateResearch cJudgeSome cParse3 cStQ = Except.ok cStEval3) ∧
    (cStEval3.needs_more_research = false ↔ cStEval3.additional_queries = []) :=
  ⟨rfl, c5_sufficient_iff_no_queries cJudgeSome cParse3 cStQ cStEval3 rfl⟩

/-- Claim C6: the stored follow-up list is exactly the first
`maxQueries` extracted queries in extraction order — never more than
`maxQueries` entries, extras dropped. -/
theorem c6_query_cap :
    ∀ (judge : String → String → String → Except Unit (Option String))
      (parse : String → Except Unit (Option (List String)))
      (st : GatherState) (t : Option String) (qs : List String),
      judge st.research_topic (formatQueriesForEval st) (formatResultsForEval st) =
        Except.ok t →
      parse (Option.getD t "") = Except.ok (some qs) →
      (evaluateResearch judge parse st = Except.ok { st with
          needs_more_research := decide (0 < qs.length),
          additional_queries := qs.take RESEARCH_CONFIG_maxQueries }) ∧
      (qs.take RESEARCH_CONFIG_maxQueries).length ≤ RESEARCH_CONFIG_maxQueries := by
  intro judge parse st t qs hj hp
  constructor
  · unfold evaluateResearch
    simp only [hj]
    simp only [hp]
    rfl
  · rw [List.length_take]
    exact min_le_left _ _

/-- Witness for C6: three extracted queries are capped to the first two. -/
theorem c6_query_cap_witness :
    (evaluateResearch cJudgeSome cParse3 cStQ = Except.ok { cStQ with
        needs_more_research := decide (0 < (["a", "b", "c"] : List String).length),
        additional_queries :=
          (["a", "b", "c"] : List String).take RESEARCH_CONFIG_maxQueries }) ∧
    ((["a", "b", "c"] : List String).take RESEARCH_CONFIG_maxQueries).length ≤
      RESEARCH_CONFIG_maxQueries :=
  c6_query_cap cJudgeSome cParse3 cStQ (some "more research needed")
    ["a", "b", "c"] rfl rfl

/-- Claim C7 counterexample: with an empty seed set the orchestrator executes
zero rounds — but it also emits no event at all for the condition, so the
empty-seed outcome is not surfaced to the subscriber (only a stdout print). -/
theorem c7_empty_seed_counterexample :
    (mainAgentGatherStep 3 [StreamEventKind.iteration_completed] cStEmptySeed).1 = 0 ∧
    (mainAgentGatherStep 3 [StreamEventKind.iteration_completed] cStEmptySeed).2 = [] :=
  ⟨rfl, rfl⟩

/-- Claim C7 amended: if the seed query set is empty, the orchestrator skips
the gather phase — zero rounds execute and the gather loop is never invoked —
but the condition is only printed to stdout: no progress event is emitted to
the subscriber, and the run continues non-exceptionally. -/
theorem c7_empty_seed_amended :
    ∀ (loopRounds : Nat) (loopEvents : List StreamEventKind) (st : GatherState),
      st.initial_queries = [] →
      mainAgentGatherStep loopRounds loopEvents st = (0, []) := by
  intro loopRounds loopEvents st h
  unfold mainAgentGatherStep
  rw [h]
  rfl

/-- Witness for the amended C7 at the concrete empty-seed state. -/
theorem c7_empty_seed_amended_witness :
    cStEmptySeed.initial_queries = [] ∧
    mainAgentGatherStep 3 [StreamEventKind.iteration_completed] cStEmptySeed = (0, []) :=
  ⟨rfl, c7_empty_seed_amended 3 [StreamEventKind.iteration_completed] cStEmptySeed rfl⟩

/-- Claim C8: every candidate whose fetch succeeds with non-empty content
contributes its record to the query's result set, and a candidate whose
fetch fails is simply dropped — removing it changes nothing else in the
result set (single-attempt, no retry: each candidate's fetch outcome is
consulted exactly once, independently of the others). -/
theorem c8_fetch_failure_isolated :
    ∀ (fetch : RawCandidate → Option String) (raw raw₂ : List RawCandidate)
      (srFail : RawCandidate),
      (∀ sr rec, sr ∈ raw → sr.link ≠ "" → scrape_task fetch sr = some rec →
        rec.content ≠ "" → rec ∈ searchOnWeb fetch raw) ∧
      (fetch srFail = none →
        searchOnWeb fetch (raw ++ srFail :: raw₂) =
          searchOnWeb fetch (raw ++ raw₂)) := by
  intro fetch raw raw₂ srFail
  constructor
  · intro sr rec hmem hlink hscr hcont
    simp only [searchOnWeb]
    rw [List.mem_filterMap]
    refine ⟨some rec, ?_, ?_⟩
    · rw [List.mem_map]
      refine ⟨sr, ?_, hscr⟩
      rw [List.mem_filter]
      exact ⟨hmem, by simpa using hlink⟩
    · simp [hcont]
  · intro hfail
    have h1 : raw ++ srFail :: raw₂ = (raw ++ [srFail]) ++ raw₂ := by simp
    rw [h1, searchOnWeb_append, searchOnWeb_append,
      searchOnWeb_failed_singleton hfail, searchOnWeb_append]
    simp

/-- Witness for C8: one failing fetch among three candidates still yields the
other two records, and the result set is exactly those two. -/
theorem c8_fetch_failure_isolated_witness :
    (cFetch cCandB = none) ∧
    cRecA ∈ searchOnWeb cFetch cRawList ∧
    cRecC ∈ searchOnWeb cFetch cRawList ∧
    searchOnWeb cFetch cRawList = [cRecA, cRecC] :=
  ⟨rfl,
   (c8_fetch_failure_isolated cFetch cRawList [] cCandB).1 cCandA cRecA
     (by decide) (by decide) (by decide) (by decide),
   (c8_fetch_failure_isolated cFetch cRawList [] cCandB).1 cCandC cRecC
     (by decide) (by decide) (by decide) (by decide),
   by decide⟩

/-- Claim C9 counterexample: when the summarization capability yields no
usable output, the stored record's summary is the literal placeholder string
`"Summary not available."` — not `null` as the claim states. -/
theorem c9_summary_placeholder_counterexample :
    (summarizeResult cSummarizeNone "q" cRec0).summary =
      some "Summary not available." ∧
    ¬ (summarizeResult cSummarizeNone "q" cRec0).summary = none :=
  ⟨rfl, by decide⟩

/-- Claim C9 amended: when summarization fails for a fetched candidate, the
record is still kept — it is appended to `search_results` — but with
`summary` set to the placeholder text `"Summary not available."` stored in
the record itself, rather than `null`. -/
theorem c9_summary_placeholder_amended :
    ∀ (summarize : String → String → Option String) (query : String)
      (r : SearchResult),
      summarize query r.content = none →
      (summarizeResult summarize query r =
        { title := r.title, link := r.link, content := r.content,
          summary := some "Summary not available." }) ∧
      (∀ (search : String → List SearchResult) (st : GatherState),
        query ∈ st.current_iteration_queries → r ∈ search query →
        summarizeResult summarize query r ∈
          (performSearchAndSummarize search summarize st).search_results) := by
  intro summarize query r h
  constructor
  · unfold summarizeResult
    rw [h]
  · intro search st hq hr
    show _ ∈ st.search_results ++ newRecordsFor search summarize st
    apply List.mem_append_right
    unfold newRecordsFor
    rw [List.mem_flatMap]
    exact ⟨query, hq, List.mem_map.mpr ⟨r, hr, rfl⟩⟩

/-- Witness for the amended C9: the concrete failed summarization keeps the
record, placeholder included, inside the round's accumulated results. -/
theorem c9_summary_placeholder_amended_witness :
    (summarizeResult cSummarizeNone "q" cRec0 =
      { title := "T", link := "u", content := "raw",
        summary := some "Summary not available." }) ∧
    (summarizeResult cSummarizeNone "q" cRec0 ∈
      (performSearchAndSummarize cSearchOne cSummarizeNone cStQ).search_results) :=
  ⟨(c9_summary_placeholder_amended cSummarizeNone "q" cRec0 rfl).1,
   (c9_summary_placeholder_amended cSummarizeNone "q" cRec0 rfl).2 cSearchOne
     cStQ (by decide) (by decide)⟩

/-- Claim C10: every record the scraping stage produces carries at most
80000 characters of content, because `scrape_task` truncates the cleaned
scraped markdown to its first 80000 characters before building the record. -/
theorem c10_content_truncation :
    (∀ (fetch : RawCandidate → Option String) (raw : List RawCandidate)
      (rec : SearchResult), rec ∈ searchOnWeb fetch raw →
      rec.content.length ≤ 80000) ∧
    (∀ (fetch : RawCandidate → Option String) (sr : RawCandidate) (md : String),
      fetch sr = some md →
      scrape_task fetch sr =
        some { title := sr.title, link := sr.link,
               content := pySlice 80000 (cleanScrapedContent sr md),
               summary := none }) := by
  constructor
  · intro fetch raw rec hmem
    simp only [searchOnWeb] at hmem
    rw [List.mem_filterMap] at hmem
    obtain ⟨o, ho, hfo⟩ := hmem
    rw [List.mem_map] at ho
    obtain ⟨sr, hsr, hmap⟩ := ho
    cases o with
    | none => exact Option.noConfusion hfo
    | some rec' =>
      have hfo' : (if rec'.content ≠ "" then some rec' else none) = some rec := hfo
      have hrec : rec' = rec := by
        by_cases hc : rec'.content ≠ ""
        · rw [if_pos hc] at hfo'
          injection hfo'
        · rw [if_neg hc] at hfo'
          exact Option.noConfusion hfo'
      subst hrec
      unfold scrape_task at hmap
      cases hf : fetch sr with
      | none =>
        rw [hf] at hmap
        exact Option.noConfusion hmap
      | some md =>
        rw [hf] at hmap
        injection hmap with h2
        rw [← h2]
        exact pySlice_length_le 80000 _
  · intro fetch sr md h
    unfold scrape_task
    rw [h]

/-- Witness for C10 at the concrete scraped record. -/
theorem c10_content_truncation_witness :
    cRecA ∈ searchOnWeb cFetch cRawList ∧ cRecA.content.length ≤ 80000 :=
  ⟨by decide, c10_content_truncation.1 cFetch cRawList cRecA (by decide)⟩

end AdkDeepResearch
